import Mathlib

/-!
Verification of the `batt` native-bridge header `pkg/gui/bridge.h`.

The header declares a plain C struct `ProxyConfig` (three proxy endpoint
groups, each with a `char*` host, an `int` port and an `int` enable flag)
and six extern functions: a system-proxy query/free pair, three
boolean-returning SMAppService login-item operations, and an NSMenu
observer attach/release pair.  The declarations themselves are embedded
below as data (`ProxyConfigFields`, `declaredSig`); the behaviour of the
functions is not present in the repository sources, so it is modelled
from the specification as an explicit state machine over `BridgeState`.
-/

namespace Batt

/-- Model of the C types occurring in `bridge.h`: `char`, `int`, `bool`
(from `stdbool.h`), `void`, `uintptr_t` (from `stdint.h`), the struct
type `ProxyConfig`, and pointers. -/
inductive CType where
  | cChar
  | cInt
  | cBool
  | cVoid
  | cUIntPtrT
  | proxyConfigStruct
  | ptr (t : CType)
deriving DecidableEq

/-- The smallest value of a 32-bit signed C `int`. -/
def cIntMin : Int := -(2 ^ 31)

/-- The largest value of a 32-bit signed C `int`. -/
def cIntMax : Int := 2 ^ 31 - 1

/-- A value is representable in the C `int` type used by the struct
fields of `bridge.h`. -/
def cIntRepresentable (v : Int) : Prop := cIntMin ≤ v ∧ v ≤ cIntMax

instance (v : Int) : Decidable (cIntRepresentable v) := by
  unfold cIntRepresentable; infer_instance

/-- C truth interpretation of an `int` used as a flag: any nonzero value
counts as true. -/
def cTruthy (v : Int) : Bool := v != 0

/-- The field names of the `ProxyConfig` struct, in declaration order. -/
inductive PCField where
  | http_host
  | http_port
  | http_enabled
  | https_host
  | https_port
  | https_enabled
  | socks_host
  | socks_port
  | socks_enabled
deriving DecidableEq

/-- The fields of `typedef struct { ... } ProxyConfig` in `bridge.h`,
each with its declared C type, in source order. -/
def ProxyConfigFields : List (PCField × CType) :=
  [(.http_host, .ptr .cChar), (.http_port, .cInt), (.http_enabled, .cInt),
   (.https_host, .ptr .cChar), (.https_port, .cInt), (.https_enabled, .cInt),
   (.socks_host, .ptr .cChar), (.socks_port, .cInt), (.socks_enabled, .cInt)]

/-- Whether a `ProxyConfig` field is one of the enable flags. -/
def PCField.isEnableFlag : PCField → Bool
  | .http_enabled => true
  | .https_enabled => true
  | .socks_enabled => true
  | _ => false

/-- Whether a `ProxyConfig` field is one of the host strings. -/
def PCField.isHost : PCField → Bool
  | .http_host => true
  | .https_host => true
  | .socks_host => true
  | _ => false

/-- Whether a `ProxyConfig` field is one of the port numbers. -/
def PCField.isPort : PCField → Bool
  | .http_port => true
  | .https_port => true
  | .socks_port => true
  | _ => false

/-- The six functions declared in `bridge.h`. -/
inductive BridgeFun where
  | getSystemProxyConfig
  | freeProxyConfig
  | registerApp
  | unregisterApp
  | isRegisteredApp
  | attachMenuObserver
  | releaseMenuObserver
deriving DecidableEq

/-- The argument list and return type each `bridge.h` function is
declared with. -/
def declaredSig : BridgeFun → List CType × CType
  | .getSystemProxyConfig => ([], .ptr .proxyConfigStruct)
  | .freeProxyConfig => ([.ptr .proxyConfigStruct], .cVoid)
  | .registerApp => ([], .cBool)
  | .unregisterApp => ([], .cBool)
  | .isRegisteredApp => ([], .cBool)
  | .attachMenuObserver => ([.cUIntPtrT, .cUIntPtrT], .ptr .cVoid)
  | .releaseMenuObserver => ([.ptr .cVoid], .cVoid)

/-- Modelled from the spec: the host operating system's proxy settings
(macOS system configuration), the data `GetSystemProxyConfig` snapshots.
The implementation behind the header is not in the repository sources.
Hosts are text, ports are numbers, and each of the three endpoints has
an on/off state. -/
structure OSProxySettings where
  httpHost : String
  httpPort : Nat
  httpEnabled : Bool
  httpsHost : String
  httpsPort : Nat
  httpsEnabled : Bool
  socksHost : String
  socksPort : Nat
  socksEnabled : Bool
deriving DecidableEq

/-- Operating-system proxy settings carry ports in the TCP port range,
below 65536. -/
def OSProxySettings.PortsValid (s : OSProxySettings) : Prop :=
  s.httpPort < 65536 ∧ s.httpsPort < 65536 ∧ s.socksPort < 65536

instance (s : OSProxySettings) : Decidable s.PortsValid := by
  unfold OSProxySettings.PortsValid; infer_instance

/-- The contents of one `ProxyConfig` record as seen across the foreign
boundary: host strings (null-terminated `char*` text), `int` ports and
`int` enable flags, one group per HTTP, HTTPS and SOCKS. -/
structure ProxyConfigVal where
  http_host : String
  http_port : Int
  http_enabled : Int
  https_host : String
  https_port : Int
  https_enabled : Int
  socks_host : String
  socks_port : Int
  socks_enabled : Int
deriving DecidableEq

/-- Modelled from the spec: the record built by the proxy query
operation, snapshotting the operating system's settings at call time.
Enable flags are written as `0`/`1` integers, ports and hosts are
copied. -/
def mkProxyConfig (s : OSProxySettings) : ProxyConfigVal :=
  { http_host := s.httpHost
    http_port := (s.httpPort : Int)
    http_enabled := if s.httpEnabled then 1 else 0
    https_host := s.httpsHost
    https_port := (s.httpsPort : Int)
    https_enabled := if s.httpsEnabled then 1 else 0
    socks_host := s.socksHost
    socks_port := (s.socksPort : Int)
    socks_enabled := if s.socksEnabled then 1 else 0 }

/-- Modelled from the spec: the operating-system state visible through
the bridge, namely the current system proxy settings (absent when no
configuration is available) and whether the application is registered
as a login item. -/
structure OSState where
  sysProxy : Option OSProxySettings
  loginItemRegistered : Bool
deriving DecidableEq

/-- Modelled from the spec: the observable state of the bridge. Besides
the operating-system state it tracks which `ProxyConfig` records are
currently allocated and which menu observers are currently attached,
each identified by a numeric handle, together with fresh-handle
counters. -/
structure BridgeState where
  os : OSState
  allocatedRecords : List Nat
  nextRecordId : Nat
  observers : List Nat
  nextObserverId : Nat
deriving DecidableEq

/-- A bridge state is well formed when every live handle is below its
freshness counter, so newly issued handles never collide with live
ones. -/
def BridgeState.WF (s : BridgeState) : Prop :=
  (∀ r ∈ s.allocatedRecords, r < s.nextRecordId) ∧
  (∀ o ∈ s.observers, o < s.nextObserverId)

/-- Modelled from the spec: `GetSystemProxyConfig`, declared in
`bridge.h` with no arguments and returning `ProxyConfig*`, whose body is
not in the repository sources.  It queries the operating system's
current proxy settings: when none are available it returns null
(`none`); otherwise it allocates a fresh record snapshotting the
settings at call time and transfers its ownership to the caller. -/
def GetSystemProxyConfig (s : BridgeState) :
    Option (Nat × ProxyConfigVal) × BridgeState :=
  match s.os.sysProxy with
  | none => (none, s)
  | some cfg =>
      (some (s.nextRecordId, mkProxyConfig cfg),
       { s with
         allocatedRecords := s.nextRecordId :: s.allocatedRecords
         nextRecordId := s.nextRecordId + 1 })

/-- Modelled from the spec: `FreeProxyConfig`, declared in `bridge.h`
taking one `ProxyConfig*` argument, whose body is not in the repository
sources.  Releasing a live record (struct and owned host strings)
succeeds and removes it from the allocated set; releasing anything else
is undefined behaviour, rendered as `none`. -/
def FreeProxyConfig (s : BridgeState) (r : Nat) : Option BridgeState :=
  if r ∈ s.allocatedRecords then
    some { s with allocatedRecords := s.allocatedRecords.erase r }
  else
    none

/-- Modelled from the spec: `registerAppWithSMAppService`, declared in
`bridge.h` with no arguments and `bool` return, whose body is not in
the repository sources.  Registering while already registered succeeds
as a no-op; otherwise the outcome depends on the operating system
(`osOk`), and a `false` return means the operation did not take effect
and the state is unchanged. -/
def registerAppWithSMAppService (osOk : Bool) (s : BridgeState) :
    Bool × BridgeState :=
  if s.os.loginItemRegistered then
    (true, s)
  else if osOk then
    (true, { s with os := { s.os with loginItemRegistered := true } })
  else
    (false, s)

/-- Modelled from the spec: `unregisterAppWithSMAppService`, declared in
`bridge.h` with no arguments and `bool` return, whose body is not in
the repository sources.  Unregistering while not registered succeeds as
a no-op; otherwise the outcome depends on the operating system
(`osOk`), and a `false` return means the operation did not take effect
and the state is unchanged. -/
def unregisterAppWithSMAppService (osOk : Bool) (s : BridgeState) :
    Bool × BridgeState :=
  if s.os.loginItemRegistered then
    if osOk then
      (true, { s with os := { s.os with loginItemRegistered := false } })
    else
      (false, s)
  else
    (true, s)

/-- Modelled from the spec: `isRegisteredWithSMAppService`, declared in
`bridge.h` with no arguments and `bool` return, whose body is not in
the repository sources.  It reports the current login-item registration
state without changing anything. -/
def isRegisteredWithSMAppService (s : BridgeState) : Bool :=
  s.os.loginItemRegistered

/-- Modelled from the spec: `batt_attachMenuObserver`, declared in
`bridge.h` taking two `uintptr_t` handles (a native menu handle and the
caller's tracking-context handle) and returning `void*`, whose body is
not in the repository sources.  It attaches a fresh observer and
returns its handle, transferring ownership to the caller. -/
def batt_attachMenuObserver (s : BridgeState) (menuPtr callerHandle : Nat) :
    Nat × BridgeState :=
  (s.nextObserverId,
   { s with
     observers := s.nextObserverId :: s.observers
     nextObserverId := s.nextObserverId + 1 })

/-- Modelled from the spec: `batt_releaseMenuObserver`, declared in
`bridge.h` taking the `void*` observer handle, whose body is not in the
repository sources.  Releasing a live observer detaches and frees it;
releasing anything else is undefined behaviour, rendered as `none`. -/
def batt_releaseMenuObserver (s : BridgeState) (obs : Nat) :
    Option BridgeState :=
  if obs ∈ s.observers then
    some { s with observers := s.observers.erase obs }
  else
    none

/-- A sample operating-system proxy configuration used to instantiate
theorems at concrete inputs. -/
def sampleSettings : OSProxySettings :=
  { httpHost := "proxy.example"
    httpPort := 8080
    httpEnabled := true
    httpsHost := "proxy.example"
    httpsPort := 8443
    httpsEnabled := false
    socksHost := "socks.example"
    socksPort := 1080
    socksEnabled := true }

/-- A sample bridge state with an available system proxy configuration
and the login item not registered. -/
def s0 : BridgeState :=
  { os := { sysProxy := some sampleSettings, loginItemRegistered := false }
    allocatedRecords := []
    nextRecordId := 0
    observers := []
    nextObserverId := 0 }

/-- A sample bridge state with no system proxy configuration available
and the login item registered. -/
def s1 : BridgeState :=
  { os := { sysProxy := none, loginItemRegistered := true }
    allocatedRecords := []
    nextRecordId := 0
    observers := []
    nextObserverId := 0 }

end Batt
namespace Batt

/-- C1: the `ProxyConfig` record exposed at the foreign boundary has
exactly nine fields, one group per HTTP, HTTPS and SOCKS proxy: three
host fields declared `char*` (null-terminated text), three port fields
declared `int`, and three enable-flag fields whose values across the
bridge are boolean, `0` or `1`, truthy exactly when the corresponding
endpoint is enabled. -/
theorem proxyConfig_nine_field_shape :
    ProxyConfigFields.length = 9 ∧
    (∀ g : Fin 3,
      (ProxyConfigFields[3 * g.val]?).map (fun f => (f.1.isHost, f.2)) =
        some (true, CType.ptr CType.cChar) ∧
      (ProxyConfigFields[3 * g.val + 1]?).map (fun f => (f.1.isPort, f.2)) =
        some (true, CType.cInt) ∧
      (ProxyConfigFields[3 * g.val + 2]?).map (fun f => f.1.isEnableFlag) =
        some true) ∧
    (∀ os : OSProxySettings,
      ((mkProxyConfig os).http_enabled = 0 ∨ (mkProxyConfig os).http_enabled = 1) ∧
      ((mkProxyConfig os).https_enabled = 0 ∨ (mkProxyConfig os).https_enabled = 1) ∧
      ((mkProxyConfig os).socks_enabled = 0 ∨ (mkProxyConfig os).socks_enabled = 1) ∧
      cTruthy (mkProxyConfig os).http_enabled = os.httpEnabled ∧
      cTruthy (mkProxyConfig os).https_enabled = os.httpsEnabled ∧
      cTruthy (mkProxyConfig os).socks_enabled = os.socksEnabled) := by
  refine ⟨rfl, by decide, ?_⟩
  intro os
  obtain ⟨a1, b1, e1, a2, b2, e2, a3, b3, e3⟩ := os
  cases e1 <;> cases e2 <;> cases e3 <;> simp [mkProxyConfig, cTruthy]

/-- C2: `GetSystemProxyConfig` is declared with no arguments and
returns an owned record snapshotting the operating system's proxy
settings at call time; `FreeProxyConfig` is its paired single-argument
release operation, returning the allocated set to what it was before
the query. -/
theorem getSystemProxyConfig_query_free_pair (s : BridgeState)
    (cfg : OSProxySettings) (h : s.os.sysProxy = some cfg) :
    (declaredSig .getSystemProxyConfig).1 = [] ∧
    (declaredSig .getSystemProxyConfig).2 = CType.ptr CType.proxyConfigStruct ∧
    declaredSig .freeProxyConfig =
      ([CType.ptr CType.proxyConfigStruct], CType.cVoid) ∧
    ∃ s', GetSystemProxyConfig s = (some (s.nextRecordId, mkProxyConfig cfg), s') ∧
      s.nextRecordId ∈ s'.allocatedRecords ∧
      FreeProxyConfig s' s.nextRecordId =
        some { s' with allocatedRecords := s.allocatedRecords } := by
  refine ⟨rfl, rfl, rfl, ?_⟩
  refine ⟨{ s with
            allocatedRecords := s.nextRecordId :: s.allocatedRecords
            nextRecordId := s.nextRecordId + 1 }, ?_, ?_, ?_⟩
  · simp [GetSystemProxyConfig, h]
  · simp
  · simp [FreeProxyConfig]

/-- Witness for C2 at the sample state `s0`. -/
theorem getSystemProxyConfig_query_free_pair_witness :
    (declaredSig .getSystemProxyConfig).1 = [] ∧
    (declaredSig .getSystemProxyConfig).2 = CType.ptr CType.proxyConfigStruct ∧
    declaredSig .freeProxyConfig =
      ([CType.ptr CType.proxyConfigStruct], CType.cVoid) ∧
    ∃ s', GetSystemProxyConfig s0 =
        (some (s0.nextRecordId, mkProxyConfig sampleSettings), s') ∧
      s0.nextRecordId ∈ s'.allocatedRecords ∧
      FreeProxyConfig s' s0.nextRecordId =
        some { s' with allocatedRecords := s0.allocatedRecords } :=
  getSystemProxyConfig_query_free_pair s0 sampleSettings rfl

/-- C3: the three login-item operations are declared with no arguments
and `bool` return, and a `false` return is the only failure signal: on
`false` the observable state is unchanged and no error detail crosses
the boundary. -/
theorem loginItem_ops_bool_only :
    declaredSig .registerApp = ([], CType.cBool) ∧
    declaredSig .unregisterApp = ([], CType.cBool) ∧
    declaredSig .isRegisteredApp = ([], CType.cBool) ∧
    (∀ ok s, (registerAppWithSMAppService ok s).1 = false →
      (registerAppWithSMAppService ok s).2 = s) ∧
    (∀ ok s, (unregisterAppWithSMAppService ok s).1 = false →
      (unregisterAppWithSMAppService ok s).2 = s) := by
  refine ⟨rfl, rfl, rfl, ?_, ?_⟩ <;>
    intro ok s h <;>
    by_cases hr : s.os.loginItemRegistered <;>
    cases ok <;>
    simp_all [registerAppWithSMAppService, unregisterAppWithSMAppService]

/-- Witness for C3: failed register and unregister calls leave the
sample states unchanged. -/
theorem loginItem_ops_bool_only_witness :
    (registerAppWithSMAppService false s0).2 = s0 ∧
    (unregisterAppWithSMAppService false s1).2 = s1 :=
  ⟨loginItem_ops_bool_only.2.2.2.1 false s0 (by decide),
   loginItem_ops_bool_only.2.2.2.2 false s1 (by decide)⟩

/-- C4: after a register call returns true a subsequent registration
query returns true, and after an unregister call returns true a
subsequent query returns false. -/
theorem register_unregister_query_consistent (ok : Bool) (s : BridgeState) :
    ((registerAppWithSMAppService ok s).1 = true →
      isRegisteredWithSMAppService (registerAppWithSMAppService ok s).2 = true) ∧
    ((unregisterAppWithSMAppService ok s).1 = true →
      isRegisteredWithSMAppService (unregisterAppWithSMAppService ok s).2 = false) := by
  by_cases hr : s.os.loginItemRegistered <;> cases ok <;>
    simp [registerAppWithSMAppService, unregisterAppWithSMAppService,
          isRegisteredWithSMAppService, hr]

/-- Witness for C4 at the sample states. -/
theorem register_unregister_query_consistent_witness :
    isRegisteredWithSMAppService (registerAppWithSMAppService true s0).2 = true ∧
    isRegisteredWithSMAppService (unregisterAppWithSMAppService true s1).2 = false :=
  ⟨(register_unregister_query_consistent true s0).1 (by decide),
   (register_unregister_query_consistent true s1).2 (by decide)⟩

/-- C5: registering while already registered succeeds as a no-op: the
call returns true, leaves the state unchanged, and never signals an
error. -/
theorem register_idempotent_when_registered (ok : Bool) (s : BridgeState)
    (h : isRegisteredWithSMAppService s = true) :
    registerAppWithSMAppService ok s = (true, s) := by
  simp only [isRegisteredWithSMAppService] at h
  simp [registerAppWithSMAppService, h]

/-- Witness for C5 at the registered sample state `s1`. -/
theorem register_idempotent_when_registered_witness :
    registerAppWithSMAppService false s1 = (true, s1) :=
  register_idempotent_when_registered false s1 (by decide)

end Batt
namespace Batt

/-- A sample bridge state as left by `GetSystemProxyConfig s0`: record
handle 0 allocated, used to instantiate theorems at concrete inputs. -/
def s0got : BridgeState :=
  { os := { sysProxy := some sampleSettings, loginItemRegistered := false }
    allocatedRecords := [0]
    nextRecordId := 1
    observers := []
    nextObserverId := 0 }

/-- C6: a record successfully returned by `GetSystemProxyConfig` can be
freed exactly once without crashing, which releases it (the allocated
set returns to what it was before the query); freeing the same record a
second time violates the precondition and is undefined, rendered as
`none`. -/
theorem free_once_succeeds_twice_undefined (s : BridgeState) (hwf : s.WF)
    (r : Nat) (v : ProxyConfigVal) (s' : BridgeState)
    (h : GetSystemProxyConfig s = (some (r, v), s')) :
    ∃ s'', FreeProxyConfig s' r = some s'' ∧
      s''.allocatedRecords = s.allocatedRecords ∧
      FreeProxyConfig s'' r = none := by
  cases hc : s.os.sysProxy with
  | none => simp [GetSystemProxyConfig, hc] at h
  | some cfg =>
    simp only [GetSystemProxyConfig, hc, Prod.mk.injEq, Option.some.injEq] at h
    obtain ⟨⟨hr, hv⟩, hs⟩ := h
    subst hr
    subst hs
    have hnot : s.nextRecordId ∉ s.allocatedRecords := fun hmem =>
      absurd (hwf.1 _ hmem) (lt_irrefl _)
    refine ⟨{ s with nextRecordId := s.nextRecordId + 1 }, ?_, rfl, ?_⟩
    · simp [FreeProxyConfig]
    · simp [FreeProxyConfig, hnot]

/-- Witness for C6: the record returned by the query at `s0` is freed
once successfully, and a second free is undefined. -/
theorem free_once_succeeds_twice_undefined_witness :
    ∃ s'', FreeProxyConfig s0got 0 = some s'' ∧
      s''.allocatedRecords = s0.allocatedRecords ∧
      FreeProxyConfig s'' 0 = none :=
  free_once_succeeds_twice_undefined s0 (by exact ⟨by decide, by decide⟩) 0
    (mkProxyConfig sampleSettings) s0got rfl

/-- C7: the query either returns a usable non-null record or returns
null, a null result occurring exactly when no system configuration is
available; when a configuration is available the returned record is its
snapshot, with no retry or partial-failure behaviour. -/
theorem getSystemProxyConfig_null_iff_no_config (s : BridgeState) :
    ((GetSystemProxyConfig s).1 = none ↔ s.os.sysProxy = none) ∧
    (∀ cfg, s.os.sysProxy = some cfg →
      (GetSystemProxyConfig s).1 = some (s.nextRecordId, mkProxyConfig cfg)) := by
  cases hc : s.os.sysProxy <;> simp [GetSystemProxyConfig, hc]

/-- Witness for C7: null at the configuration-less sample state, a
snapshot record at the configured one. -/
theorem getSystemProxyConfig_null_iff_no_config_witness :
    (GetSystemProxyConfig s1).1 = none ∧
    (GetSystemProxyConfig s0).1 = some (s0.nextRecordId, mkProxyConfig sampleSettings) :=
  ⟨(getSystemProxyConfig_null_iff_no_config s1).1.mpr rfl,
   (getSystemProxyConfig_null_iff_no_config s0).2 sampleSettings rfl⟩

/-- C8: `batt_attachMenuObserver` is declared with two `uintptr_t`
handle arguments (native menu, caller tracking context) and returns an
owned observer handle; `batt_releaseMenuObserver` consumes it, and
attach followed by release of the returned handle succeeds (no crash)
and restores the observer set, leaving no dangling state observable
through this interface. -/
theorem attach_release_menuObserver_clean (s : BridgeState)
    (menuPtr callerHandle : Nat) :
    declaredSig .attachMenuObserver =
      ([CType.cUIntPtrT, CType.cUIntPtrT], CType.ptr CType.cVoid) ∧
    declaredSig .releaseMenuObserver = ([CType.ptr CType.cVoid], CType.cVoid) ∧
    ∃ s'',
      batt_releaseMenuObserver (batt_attachMenuObserver s menuPtr callerHandle).2
        (batt_attachMenuObserver s menuPtr callerHandle).1 = some s'' ∧
      s''.observers = s.observers := by
  refine ⟨rfl, rfl, { s with nextObserverId := s.nextObserverId + 1 }, ?_, rfl⟩
  simp [batt_attachMenuObserver, batt_releaseMenuObserver]

/-- C9: every non-null record returned by the query has exactly three
enable flags, each one boolean-valued (`0` or `1`) independently of the
others, and each port value is nonnegative, at most 65535, and
representable in the 32-bit `int` field, hence in an ordinary 16/32-bit
integer. -/
theorem returned_record_flags_bool_ports_bounded (s : BridgeState)
    (cfg : OSProxySettings) (h : s.os.sysProxy = some cfg)
    (hp : cfg.PortsValid) :
    ∃ r v s', GetSystemProxyConfig s = (some (r, v), s') ∧
      (ProxyConfigFields.filter (fun f => f.1.isEnableFlag)).length = 3 ∧
      (v.http_enabled = 0 ∨ v.http_enabled = 1) ∧
      (v.https_enabled = 0 ∨ v.https_enabled = 1) ∧
      (v.socks_enabled = 0 ∨ v.socks_enabled = 1) ∧
      (0 ≤ v.http_port ∧ v.http_port ≤ 65535 ∧ cIntRepresentable v.http_port) ∧
      (0 ≤ v.https_port ∧ v.https_port ≤ 65535 ∧ cIntRepresentable v.https_port) ∧
      (0 ≤ v.socks_port ∧ v.socks_port ≤ 65535 ∧ cIntRepresentable v.socks_port) := by
  refine ⟨s.nextRecordId, mkProxyConfig cfg,
    { s with
      allocatedRecords := s.nextRecordId :: s.allocatedRecords
      nextRecordId := s.nextRecordId + 1 },
    by simp [GetSystemProxyConfig, h], by decide, ?_⟩
  unfold OSProxySettings.PortsValid at hp
  obtain ⟨hp1, hp2, hp3⟩ := hp
  cases hE1 : cfg.httpEnabled <;> cases hE2 : cfg.httpsEnabled <;>
    cases hE3 : cfg.socksEnabled <;>
    simp [mkProxyConfig, cIntRepresentable, cIntMin, cIntMax, hE1, hE2, hE3] <;>
    omega

/-- Witness for C9 at the sample state `s0`. -/
theorem returned_record_flags_bool_ports_bounded_witness :
    ∃ r v s', GetSystemProxyConfig s0 = (some (r, v), s') ∧
      (ProxyConfigFields.filter (fun f => f.1.isEnableFlag)).length = 3 ∧
      (v.http_enabled = 0 ∨ v.http_enabled = 1) ∧
      (v.https_enabled = 0 ∨ v.https_enabled = 1) ∧
      (v.socks_enabled = 0 ∨ v.socks_enabled = 1) ∧
      (0 ≤ v.http_port ∧ v.http_port ≤ 65535 ∧ cIntRepresentable v.http_port) ∧
      (0 ≤ v.https_port ∧ v.https_port ≤ 65535 ∧ cIntRepresentable v.https_port) ∧
      (0 ≤ v.socks_port ∧ v.socks_port ≤ 65535 ∧ cIntRepresentable v.socks_port) :=
  returned_record_flags_bool_ports_bounded s0 sampleSettings rfl (by decide)

/-- C10: at the declared C boundary the port and enable-flag fields of
`ProxyConfig` are plain signed machine `int`s, not C `bool` or 16-bit
types: the `int` type admits values other than 0 and 1, negative
values, and values above 65535, and C truthiness counts any nonzero
integer as enabled, so the boolean/16-bit reading is a caller-side
convention the type does not enforce. -/
theorem flags_ports_declared_int_not_bool :
    (∀ g : Fin 3,
      (ProxyConfigFields[3 * g.val + 1]?).map Prod.snd = some CType.cInt ∧
      (ProxyConfigFields[3 * g.val + 2]?).map Prod.snd = some CType.cInt) ∧
    CType.cInt ≠ CType.cBool ∧
    cTruthy 2 = true ∧ cTruthy (-3) = true ∧ cTruthy 0 = false ∧
    cIntRepresentable (-1) ∧ (-1 : Int) < 0 ∧
    cIntRepresentable 70000 ∧ (65535 : Int) < 70000 := by
  decide

end Batt
